import Mathlib

/-!
Shallow embedding of the payment and wallet ledger core of the
HARCOURT_UNIVERSITY tutoring-marketplace application
(`payments/models.py`, `payments/views.py`, `payments/forms.py`).

Monetary amounts (Python `Decimal`) are modelled as exact rationals `ℚ`;
timestamps (`timezone.now()`, `timedelta(days=…)`) are modelled as integers
counting days, passed explicitly where the source calls `timezone.now()`.
Persistence (`obj.save()`, `Model.objects.create`) is modelled as explicit
state passing: each operation takes the stored state and returns the updated
state.
-/

namespace Harcourt

/-- Direction of a `WalletTransaction` (`TRANSACTION_TYPE_CHOICES` in
`payments/models.py`). -/
inductive TransactionType where
  | credit
  | debit
deriving DecidableEq, Repr

/-- One immutable row of the append-only wallet ledger
(`WalletTransaction` model, `payments/models.py`). -/
structure WalletTransaction where
  transaction_type : TransactionType
  amount : ℚ
  balance_after : ℚ
  txdescription : String
deriving DecidableEq, Repr

/-- The per-user stored-value balance (`Wallet` model, `payments/models.py`).
Only the mutable `balance` field matters to the claims; `is_active` and the
timestamps are never read by the core operations. -/
structure Wallet where
  balance : ℚ
deriving DecidableEq, Repr

/-- `Wallet.add_funds(self, amount, description="", transaction_type='credit')`
(`payments/models.py` lines 172-185).  The Python method mutates `self` and
inserts a `WalletTransaction` row; here it returns the success flag, the
updated wallet, and the ledger with the appended row.  Callers in the
repository always leave `transaction_type` at its default `'credit'`. -/
def Wallet.add_funds (w : Wallet) (ledger : List WalletTransaction)
    (amount : ℚ) (d : String) (transaction_type : TransactionType) :
    Bool × Wallet × List WalletTransaction :=
  if amount > 0 then
    let w2 : Wallet := { balance := w.balance + amount }
    (true, w2,
      ledger ++ [{ transaction_type := transaction_type, amount := amount,
                   balance_after := w2.balance, txdescription := d }])
  else
    (false, w, ledger)

/-- `Wallet.deduct_funds(self, amount, description="")`
(`payments/models.py` lines 187-200): guarded by
`if self.balance >= amount and amount > 0`. -/
def Wallet.deduct_funds (w : Wallet) (ledger : List WalletTransaction)
    (amount : ℚ) (d : String) :
    Bool × Wallet × List WalletTransaction :=
  if w.balance ≥ amount ∧ amount > 0 then
    let w2 : Wallet := { balance := w.balance - amount }
    (true, w2,
      ledger ++ [{ transaction_type := .debit, amount := amount,
                   balance_after := w2.balance, txdescription := d }])
  else
    (false, w, ledger)

/-- `Wallet.has_sufficient_balance(self, amount)`
(`payments/models.py` lines 202-203): `return self.balance >= amount`. -/
def Wallet.has_sufficient_balance (w : Wallet) (amount : ℚ) : Bool :=
  w.balance ≥ amount

/-- One credit or debit request against a wallet, used to state properties
about arbitrary sequences of the two mutating operations. -/
inductive WalletOp where
  | credit (amount : ℚ) (d : String)
  | debit (amount : ℚ) (d : String)
deriving DecidableEq, Repr

/-- Apply one `WalletOp` through the source's `add_funds` / `deduct_funds`,
discarding the success flag (state after the call, successful or not). -/
def applyWalletOp (w : Wallet) (ledger : List WalletTransaction) :
    WalletOp → Wallet × List WalletTransaction
  | .credit a d => ((w.add_funds ledger a d .credit).2.1, (w.add_funds ledger a d .credit).2.2)
  | .debit a d => ((w.deduct_funds ledger a d).2.1, (w.deduct_funds ledger a d).2.2)

/-- Run a sequence of credit/debit operations from a starting state. -/
def runWalletOps (w : Wallet) (ledger : List WalletTransaction) :
    List WalletOp → Wallet × List WalletTransaction
  | [] => (w, ledger)
  | op :: ops =>
    let s := applyWalletOp w ledger op
    runWalletOps s.1 s.2 ops

theorem add_funds_balance_nonneg (w : Wallet) (L : List WalletTransaction)
    (a : ℚ) (d : String) (t : TransactionType) (h : 0 ≤ w.balance) :
    0 ≤ ((w.add_funds L a d t).2.1).balance := by
  unfold Wallet.add_funds
  split
  · simp only
    next ha => positivity
  · simpa using h

theorem deduct_funds_balance_nonneg (w : Wallet) (L : List WalletTransaction)
    (a : ℚ) (d : String) (h : 0 ≤ w.balance) :
    0 ≤ ((w.deduct_funds L a d).2.1).balance := by
  unfold Wallet.deduct_funds
  split
  · next hc => simp only; linarith [hc.1]
  · simpa using h

theorem applyWalletOp_balance_nonneg (w : Wallet) (L : List WalletTransaction)
    (op : WalletOp) (h : 0 ≤ w.balance) :
    0 ≤ ((applyWalletOp w L op).1).balance := by
  cases op with
  | credit a d => exact add_funds_balance_nonneg w L a d .credit h
  | debit a d => exact deduct_funds_balance_nonneg w L a d h

theorem runWalletOps_balance_nonneg (ops : List WalletOp) :
    ∀ (w : Wallet) (L : List WalletTransaction), 0 ≤ w.balance →
      0 ≤ ((runWalletOps w L ops).1).balance := by
  induction ops with
  | nil => intro w L h; simpa [runWalletOps] using h
  | cons op ops ih =>
    intro w L h
    simpa [runWalletOps] using
      ih (applyWalletOp w L op).1 (applyWalletOp w L op).2
        (applyWalletOp_balance_nonneg w L op h)

/-- C2: for every wallet with non-negative balance, `deduct_funds` fails
exactly when `amount ≤ 0` or `amount` exceeds the balance, a failed debit
returns `false` and leaves the balance and the `WalletTransaction` ledger
unchanged, and under any sequence of credit/debit operations the balance
never becomes negative. -/
theorem debit_no_overdraft (w : Wallet) (L : List WalletTransaction)
    (h : 0 ≤ w.balance) :
    (∀ (a : ℚ) (d : String), (a ≤ 0 ∨ w.balance < a) →
        w.deduct_funds L a d = (false, w, L)) ∧
    (∀ ops : List WalletOp, 0 ≤ ((runWalletOps w L ops).1).balance) := by
  constructor
  · intro a d hfail
    unfold Wallet.deduct_funds
    rw [if_neg]
    rcases hfail with h1 | h1
    · rintro ⟨-, h2⟩; linarith
    · rintro ⟨h2, -⟩; linarith
  · intro ops
    exact runWalletOps_balance_nonneg ops w L h

/-- Witness for C2 at a concrete wallet: balance 10, failed debits of -3
(non-positive) and 25 (insufficient), and a concrete operation sequence
keeping the balance non-negative. -/
theorem debit_no_overdraft_witness :
    (0:ℚ) ≤ (Wallet.mk 10).balance ∧
    (Wallet.mk 10).deduct_funds [] (-3) "x" = (false, Wallet.mk 10, []) ∧
    (Wallet.mk 10).deduct_funds [] 25 "x" = (false, Wallet.mk 10, []) ∧
    0 ≤ ((runWalletOps (Wallet.mk 10) []
      [.debit 4 "a", .credit 1 "b", .debit 7 "c"]).1).balance := by
  refine ⟨by norm_num, ?_, ?_, ?_⟩
  · exact (debit_no_overdraft (Wallet.mk 10) [] (by norm_num)).1 (-3) "x" (by left; norm_num)
  · exact (debit_no_overdraft (Wallet.mk 10) [] (by norm_num)).1 25 "x" (by right; norm_num)
  · exact (debit_no_overdraft (Wallet.mk 10) [] (by norm_num)).2
      [.debit 4 "a", .credit 1 "b", .debit 7 "c"]

/-- C7: for every wallet state and every `0 < amount ≤ balance`, a debit of
`amount` immediately followed by a credit of `amount` (through the source's
`deduct_funds` then `add_funds`) succeeds twice, restores the original
balance, and appends exactly two ledger rows: one debit recording the
post-debit balance, then one credit recording the restored balance. -/
theorem debit_then_credit_roundtrip (w : Wallet) (L : List WalletTransaction)
    (a : ℚ) (d1 d2 : String) (hpos : 0 < a) (hle : a ≤ w.balance) :
    (w.deduct_funds L a d1).1 = true ∧
    ((w.deduct_funds L a d1).2.1.add_funds (w.deduct_funds L a d1).2.2
        a d2 .credit).1 = true ∧
    (((w.deduct_funds L a d1).2.1.add_funds (w.deduct_funds L a d1).2.2
        a d2 .credit).2.1).balance = w.balance ∧
    (((w.deduct_funds L a d1).2.1.add_funds (w.deduct_funds L a d1).2.2
        a d2 .credit).2.2) =
      L ++ [{ transaction_type := .debit, amount := a,
              balance_after := w.balance - a, txdescription := d1 },
            { transaction_type := .credit, amount := a,
              balance_after := w.balance, txdescription := d2 }] := by
  have hdec : w.deduct_funds L a d1 =
      (true, { balance := w.balance - a },
        L ++ [{ transaction_type := .debit, amount := a,
                balance_after := w.balance - a, txdescription := d1 }]) := by
    unfold Wallet.deduct_funds
    rw [if_pos ⟨hle, hpos⟩]
  rw [hdec]
  have hadd : Wallet.add_funds { balance := w.balance - a }
      (L ++ [{ transaction_type := .debit, amount := a,
               balance_after := w.balance - a, txdescription := d1 }]) a d2 .credit =
      (true, { balance := w.balance - a + a },
        (L ++ [{ transaction_type := .debit, amount := a,
                 balance_after := w.balance - a, txdescription := d1 }]) ++
          [{ transaction_type := .credit, amount := a,
             balance_after := w.balance - a + a, txdescription := d2 }]) := by
    unfold Wallet.add_funds
    rw [if_pos hpos]
  rw [hadd]
  refine ⟨rfl, rfl, by simp, by simp⟩

/-- Witness for C7: wallet with balance 100, debit 30 then credit 30. -/
theorem debit_then_credit_roundtrip_witness :
    (0:ℚ) < 30 ∧ (30:ℚ) ≤ (Wallet.mk 100).balance ∧
    ((((Wallet.mk 100).deduct_funds [] 30 "s").2.1.add_funds
        ((Wallet.mk 100).deduct_funds [] 30 "s").2.2 30 "t" .credit).2.1).balance
      = (100:ℚ) := by
  refine ⟨by norm_num, by norm_num, ?_⟩
  exact (debit_then_credit_roundtrip (Wallet.mk 100) [] 30 "s" "t"
    (by norm_num) (by norm_num)).2.2.1

/-- C10: `has_sufficient_balance` is the pure predicate `balance ≥ amount`
(it mutates nothing — in the embedding it is a function of the wallet
alone), so for a wallet with non-negative balance it returns `true` for
zero and for negative amounts, even though `add_funds` and `deduct_funds`
both reject those amounts. -/
theorem has_sufficient_balance_spec (w : Wallet) (a : ℚ) :
    (w.has_sufficient_balance a = true ↔ a ≤ w.balance) ∧
    (0 ≤ w.balance → a ≤ 0 →
      w.has_sufficient_balance a = true ∧
      (∀ (L : List WalletTransaction) (d : String) (t : TransactionType),
        (w.add_funds L a d t).1 = false) ∧
      (∀ (L : List WalletTransaction) (d : String),
        (w.deduct_funds L a d).1 = false)) := by
  constructor
  · simp [Wallet.has_sufficient_balance]
  · intro hw ha
    refine ⟨?_, ?_, ?_⟩
    · simp only [Wallet.has_sufficient_balance, ge_iff_le, decide_eq_true_eq]
      linarith
    · intro L d t
      unfold Wallet.add_funds
      rw [if_neg (by linarith)]
    · intro L d
      unfold Wallet.deduct_funds
      rw [if_neg (by rintro ⟨-, h2⟩; linarith)]

/-- Witness for C10 at balance 7 and amounts 3, 0 and -2. -/
theorem has_sufficient_balance_spec_witness :
    (Wallet.mk 7).has_sufficient_balance 3 = true ∧
    (Wallet.mk 7).has_sufficient_balance 0 = true ∧
    (Wallet.mk 7).has_sufficient_balance (-2) = true ∧
    ((Wallet.mk 7).add_funds [] (-2) "d" .credit).1 = false ∧
    ((Wallet.mk 7).deduct_funds [] 0 "d").1 = false := by
  refine ⟨?_, ?_, ?_, ?_, ?_⟩
  · exact (has_sufficient_balance_spec (Wallet.mk 7) 3).1.2 (by norm_num)
  · exact ((has_sufficient_balance_spec (Wallet.mk 7) 0).2 (by norm_num)
      (by norm_num)).1
  · exact ((has_sufficient_balance_spec (Wallet.mk 7) (-2)).2 (by norm_num)
      (by norm_num)).1
  · exact ((has_sufficient_balance_spec (Wallet.mk 7) (-2)).2 (by norm_num)
      (by norm_num)).2.1 [] "d" .credit
  · exact ((has_sufficient_balance_spec (Wallet.mk 7) 0).2 (by norm_num)
      (by norm_num)).2.2 [] "d"

/-- `PAYMENT_TYPE_CHOICES` of the `Payment` model (`payments/models.py`). -/
inductive PaymentType where
  | session
  | subscription
  | resource
  | video
  | package
  | wallet_topup
deriving DecidableEq, Repr

/-- `STATUS_CHOICES` of the `Payment` model (`payments/models.py`). -/
inductive PaymentStatus where
  | pending
  | processing
  | completed
  | failed
  | cancelled
  | refunded
  | partially_refunded
deriving DecidableEq, Repr

/-- The `Payment` model (`payments/models.py`).  `metadata` is a free-form
JSON field; the core only ever stores and reads the keys `plan` and `months`
(subscription purchases) and `phone_number` (mobile-money), modelled as the
three optional `meta_*` fields; absent keys are `none`.  `gateway_response`
is an opaque payload, modelled as an optional string.  `completed_at` is an
optional timestamp in days. -/
structure Payment where
  id : Nat
  user : Nat
  payment_type : PaymentType
  amount : ℚ
  payment_method : String
  status : PaymentStatus
  session : Option Nat
  stripe_payment_intent_id : String
  gateway_response : Option String
  pdescription : String
  meta_plan : Option String
  meta_months : Option Nat
  meta_phone : Option String
  completed_at : Option Int
deriving DecidableEq, Repr

/-- `STATUS_CHOICES` of the `Refund` model (`payments/models.py`). -/
inductive RefundStatus where
  | requested
  | under_review
  | approved
  | rejected
  | processed
deriving DecidableEq, Repr

/-- The `Refund` model (`payments/models.py`): 1:1 with a Payment. -/
structure Refund where
  payment_id : Nat
  reason : String
  reason_detail : String
  amount : ℚ
  status : RefundStatus
deriving DecidableEq, Repr

/-- Outcome of `RequestRefundView.form_valid`: the view either rejects with
an error message and redirects (no Refund row written), or saves the new
Refund.  The two rejection branches carry the two distinct error messages of
the source. -/
inductive RefundOutcome where
  | notEligible
  | alreadyRequested
  | created (r : Refund)
deriving DecidableEq, Repr

/-- `RequestRefundView.form_valid` (`payments/views.py` lines 328-348).
`existing_refund` is `payment.refund` when a Refund row exists for this
payment (`hasattr(payment, 'refund')`), else `none`.  `form_amount` is the
optional `amount` field of `RefundRequestForm` (`required=False`); the
source's `if not form.instance.amount` is Python falsiness, so a missing
amount or an amount equal to 0 is replaced by the full payment amount.
The source performs no upper-bound check on the requested amount. -/
def requestRefund (payment : Payment) (existing_refund : Option Refund)
    (reason : String) (detail : String) (form_amount : Option ℚ) :
    RefundOutcome :=
  if payment.status ≠ .completed then
    .notEligible
  else if existing_refund.isSome then
    .alreadyRequested
  else
    let amount : ℚ :=
      match form_amount with
      | none => payment.amount
      | some a => if a = 0 then payment.amount else a
    .created { payment_id := payment.id, reason := reason,
               reason_detail := detail, amount := amount,
               status := .requested }

/-- A completed payment of 50 with no prior refund, used in concrete
refund scenarios. -/
def completedPayment50 : Payment :=
  { id := 1, user := 1, payment_type := .session, amount := 50,
    payment_method := "stripe", status := .completed, session := some 9,
    stripe_payment_intent_id := "pi_1", gateway_response := none,
    pdescription := "Payment for session: Algebra", meta_plan := none,
    meta_months := none, meta_phone := none, completed_at := some 3 }

/-- C3 as stated is false: the code never compares the requested amount
with the original payment amount.  For the completed payment of 50 and an
explicit requested amount of 100 (strictly greater), `form_valid` does not
fail: it creates the Refund with amount 100. -/
theorem refund_over_amount_not_rejected :
    requestRefund completedPayment50 none "other" "d" (some 100) =
      .created { payment_id := 1, reason := "other", reason_detail := "d",
                 amount := 100, status := .requested } := by
  decide

/-- C3 amended: for a completed Payment with no existing Refund, omitting
the amount creates a Refund for the full payment amount; an explicit
non-zero amount is stored as given, with no upper-bound validation — in
particular an amount strictly greater than the payment amount still creates
a Refund carrying that amount. -/
theorem refund_amount_defaulting (payment : Payment) (r d : String)
    (hst : payment.status = .completed) :
    requestRefund payment none r d none =
      .created { payment_id := payment.id, reason := r, reason_detail := d,
                 amount := payment.amount, status := .requested } ∧
    (∀ a : ℚ, payment.amount < a → a ≠ 0 →
      requestRefund payment none r d (some a) =
        .created { payment_id := payment.id, reason := r, reason_detail := d,
                   amount := a, status := .requested }) := by
  constructor
  · unfold requestRefund
    rw [if_neg (by simp [hst]), if_neg (by simp)]
  · intro a _ ha
    unfold requestRefund
    rw [if_neg (by simp [hst]), if_neg (by simp)]
    simp [ha]

/-- Witness for C3 amended at the concrete completed payment of 50. -/
theorem refund_amount_defaulting_witness :
    completedPayment50.status = .completed ∧
    requestRefund completedPayment50 none "other" "d" none =
      .created { payment_id := 1, reason := "other", reason_detail := "d",
                 amount := 50, status := .requested } ∧
    requestRefund completedPayment50 none "other" "d" (some 80) =
      .created { payment_id := 1, reason := "other", reason_detail := "d",
                 amount := 80, status := .requested } := by
  refine ⟨rfl, ?_, ?_⟩
  · exact (refund_amount_defaulting completedPayment50 "other" "d" rfl).1
  · exact (refund_amount_defaulting completedPayment50 "other" "d" rfl).2
      80 (by norm_num [completedPayment50]) (by norm_num)

/-- C8 as stated is false in one corner: the status check runs first, so a
Payment that already has a Refund but whose status is no longer `completed`
(here: `failed`, reachable because `handle_payment_failure` overwrites the
status unconditionally) is rejected with the NotEligible message, not with
AlreadyRequested. -/
theorem refund_precedence_counterexample :
    requestRefund { completedPayment50 with status := .failed }
        (some { payment_id := 1, reason := "other", reason_detail := "d",
                amount := 50, status := .requested })
        "other" "d2" none = .notEligible := by
  decide

/-- C8 amended: `form_valid` fails with the NotEligible message for every
Payment whose status is not `completed` (whether or not a Refund exists —
the status check takes precedence), fails with the AlreadyRequested message
for every completed Payment that already has a Refund, and in both failure
cases creates no Refund. -/
theorem refund_rejections (payment : Payment) (ex : Option Refund)
    (r d : String) (fa : Option ℚ) :
    (payment.status ≠ .completed →
      requestRefund payment ex r d fa = .notEligible) ∧
    (payment.status = .completed → ex.isSome →
      requestRefund payment ex r d fa = .alreadyRequested) := by
  constructor
  · intro hst
    unfold requestRefund
    rw [if_pos hst]
  · intro hst hex
    unfold requestRefund
    rw [if_neg (by simp [hst]), if_pos hex]

/-- Witness for C8 amended: a pending payment is NotEligible, and the
completed payment with an existing Refund is AlreadyRequested. -/
theorem refund_rejections_witness :
    requestRefund { completedPayment50 with status := .pending }
        none "other" "d" none = .notEligible ∧
    requestRefund completedPayment50
        (some { payment_id := 1, reason := "other", reason_detail := "d",
                amount := 50, status := .requested })
        "other" "d" none = .alreadyRequested := by
  constructor
  · exact (refund_rejections { completedPayment50 with status := .pending }
      none "other" "d" none).1 (by decide)
  · exact (refund_rejections completedPayment50
      (some { payment_id := 1, reason := "other", reason_detail := "d",
              amount := 50, status := .requested })
      "other" "d" none).2 rfl rfl

/-- `STATUS_CHOICES` of `TutoringSession` (`tutoring/models.py`). -/
inductive SessionStatus where
  | scheduled
  | confirmed
  | in_progress
  | completed
  | cancelled
  | no_show
  | rescheduled
deriving DecidableEq, Repr

/-- The slice of `TutoringSession` the payment core reads and writes:
`total_amount` (read when creating a session payment) and `status`
(written to `confirmed` on payment completion). -/
structure SessionRec where
  id : Nat
  title : String
  total_amount : ℚ
  status : SessionStatus
deriving DecidableEq, Repr

/-- `STATUS_CHOICES` of `TutorSubscription` (`payments/models.py`). -/
inductive SubscriptionStatus where
  | active
  | expired
  | cancelled
  | suspended
deriving DecidableEq, Repr

/-- The `TutorSubscription` model (`payments/models.py`): 1:1 with a tutor
user.  `plan` mirrors the stored `CharField` (fed from
`payment.metadata.get('plan')`, hence optional in the in-memory object);
dates are timestamps in days. -/
structure TutorSubscription where
  tutor : Nat
  plan : Option String
  start_date : Int
  end_date : Int
  amount_paid : ℚ
  status : SubscriptionStatus
  payment : Option Nat
deriving DecidableEq, Repr

/-- The slice of `TutorProfile` (`accounts/models.py`) written by
subscription activation: `subscription_active` and `subscription_expiry`. -/
structure TutorProfile where
  subscription_active : Bool
  subscription_expiry : Option Int
deriving DecidableEq, Repr

/-- `StripeWebhookView.create_tutor_subscription(self, payment)`
(`payments/views.py` lines 413-445).  `now` stands for `timezone.now()`
(in days, so `timedelta(days=30 * months)` is `30 * months`); `existing`
is the tutor's `TutorSubscription` row when one exists
(`get_or_create` branches on it); `profile` is `payment.user.tutor_profile`.
Returns the saved subscription and the updated profile. -/
def create_tutor_subscription (payment : Payment) (now : Int)
    (existing : Option TutorSubscription) (profile : TutorProfile) :
    TutorSubscription × TutorProfile :=
  let plan := payment.meta_plan
  let months : Nat := payment.meta_months.getD 1
  let start_date := now
  let end_date := start_date + 30 * (months : Int)
  let subscription : TutorSubscription :=
    match existing with
    | none =>
      { tutor := payment.user, plan := plan, start_date := start_date,
        end_date := end_date, amount_paid := payment.amount,
        status := .active, payment := some payment.id }
    | some s =>
      { s with plan := plan,
               end_date := max s.end_date now + 30 * (months : Int),
               amount_paid := s.amount_paid + payment.amount,
               status := .active }
  let profile2 : TutorProfile :=
    { profile with subscription_active := true,
                   subscription_expiry := some subscription.end_date }
  (subscription, profile2)

/-- C6: activating a completed subscription Payment with `d` months of
duration extends an existing Subscription to
`max(existing end_date, now) + 30 * d` days (stacking the remaining time),
adds the payment amount to `amount_paid`, forces status `active`, and sets
the tutor profile's `subscription_active` flag and `subscription_expiry`;
with no existing Subscription it creates one with `start = now` and
`end = now + 30 * d`. -/
theorem subscription_activation_spec (payment : Payment) (now : Int)
    (profile : TutorProfile) (d : Nat)
    (hm : payment.meta_months = some d) :
    (∀ s : TutorSubscription,
      (create_tutor_subscription payment now (some s) profile).1.end_date =
          max s.end_date now + 30 * (d : Int) ∧
      (create_tutor_subscription payment now (some s) profile).1.amount_paid =
          s.amount_paid + payment.amount ∧
      (create_tutor_subscription payment now (some s) profile).1.status =
          .active ∧
      (create_tutor_subscription payment now (some s) profile).2 =
        { subscription_active := true,
          subscription_expiry :=
            some (max s.end_date now + 30 * (d : Int)) }) ∧
    ((create_tutor_subscription payment now none profile).1.start_date = now ∧
     (create_tutor_subscription payment now none profile).1.end_date =
        now + 30 * (d : Int) ∧
     (create_tutor_subscription payment now none profile).1.status = .active ∧
     (create_tutor_subscription payment now none profile).2 =
       { subscription_active := true,
         subscription_expiry := some (now + 30 * (d : Int)) }) := by
  constructor
  · intro s
    refine ⟨?_, ?_, ?_, ?_⟩ <;>
      simp [create_tutor_subscription, hm]
  · refine ⟨?_, ?_, ?_, ?_⟩ <;>
      simp [create_tutor_subscription, hm]

/-- A completed 3-month standard-plan subscription payment of 120, the
amount and duration `SubscriptionView.post` stores for the standard plan. -/
def subscriptionPayment120 : Payment :=
  { id := 2, user := 4, payment_type := .subscription, amount := 120,
    payment_method := "stripe", status := .completed, session := none,
    stripe_payment_intent_id := "pi_2", gateway_response := none,
    pdescription := "Tutor subscription - Standard plan",
    meta_plan := some "standard", meta_months := some 3, meta_phone := none,
    completed_at := some 100 }

/-- Witness for C6: renewing at day 100 a subscription that ends at day 110
(10 days remaining) with the 3-month payment yields end_date 200
(= max(110, 100) + 90, stacking), and a fresh activation yields
start 100 / end 190. -/
theorem subscription_activation_spec_witness :
    subscriptionPayment120.meta_months = some 3 ∧
    (create_tutor_subscription subscriptionPayment120 100
        (some { tutor := 4, plan := some "standard", start_date := 10,
                end_date := 110, amount_paid := 120, status := .active,
                payment := some 1 })
        { subscription_active := true, subscription_expiry := some 110 }
      ).1.end_date = 200 ∧
    (create_tutor_subscription subscriptionPayment120 100 none
        { subscription_active := false, subscription_expiry := none }
      ).1.end_date = 190 := by
  refine ⟨rfl, ?_, ?_⟩
  · have h := ((subscription_activation_spec subscriptionPayment120 100
      { subscription_active := true, subscription_expiry := some 110 } 3 rfl).1
      { tutor := 4, plan := some "standard", start_date := 10,
        end_date := 110, amount_paid := 120, status := .active,
        payment := some 1 }).1
    rw [h]; decide
  · have h := (subscription_activation_spec subscriptionPayment120 100
      { subscription_active := false, subscription_expiry := none } 3 rfl).2.2.1
    rw [h]; norm_num

/-- The persisted state one webhook notification can touch, restricted to
the records of the notified payment's user: the payment table, the session
table, the user's optional `TutorSubscription` row, their `TutorProfile`,
their optional `Wallet` row (`Wallet.objects.get_or_create` creates it with
balance 0 on first access), and the wallet's transaction ledger. -/
structure Store where
  payments : List Payment
  sessions : List SessionRec
  subscription : Option TutorSubscription
  profile : TutorProfile
  wallet : Option Wallet
  ledger : List WalletTransaction
deriving DecidableEq, Repr

/-- The slice of a Stripe `payment_intent` object the webhook reads:
`payment_intent['metadata'].get('payment_id')` (absent key modelled as
`none`) and the payload stored into `Payment.gateway_response`. -/
structure PaymentIntent where
  payment_id : Option Nat
  payload : String
deriving DecidableEq, Repr

/-- `Payment.objects.get(id=payment_id)`: `none` when the metadata has no
`payment_id` or no stored Payment matches (both raise
`Payment.DoesNotExist` in the source, caught by the handlers). -/
def findPayment (ps : List Payment) : Option Nat → Option Payment
  | none => none
  | some pid => ps.find? (fun p => p.id = pid)

/-- `payment.save()`: replace the row with this payment's id. -/
def savePayment (ps : List Payment) (p : Payment) : List Payment :=
  ps.map (fun q => if q.id = p.id then p else q)

/-- `payment.session.status = 'confirmed'; payment.session.save()`. -/
def confirmSession (ss : List SessionRec) (sid : Nat) : List SessionRec :=
  ss.map (fun s => if s.id = sid then { s with status := .confirmed } else s)

/-- `StripeWebhookView.handle_payment_success(self, payment_intent)`
(`payments/views.py` lines 374-398).  Looks the Payment up by the metadata
`payment_id` (a miss is swallowed: `except Payment.DoesNotExist: pass`),
unconditionally sets status `completed`, `completed_at = now`, stores the
gateway payload, then dispatches the type-keyed side effect: session →
confirm the linked session (when one is linked), subscription →
`create_tutor_subscription`, wallet_topup → `get_or_create` the wallet and
`add_funds` (result discarded).  There is no already-completed guard. -/
def handle_payment_success (store : Store) (intent : PaymentIntent)
    (now : Int) : Store :=
  match findPayment store.payments intent.payment_id with
  | none => store
  | some payment =>
    let payment2 : Payment :=
      { payment with status := .completed, completed_at := some now,
                     gateway_response := some intent.payload }
    let base : Store := { store with payments := savePayment store.payments payment2 }
    match payment2.payment_type with
    | .session =>
      match payment2.session with
      | some sid => { base with sessions := confirmSession base.sessions sid }
      | none => base
    | .subscription =>
      let sp := create_tutor_subscription payment2 now base.subscription base.profile
      { base with subscription := some sp.1, profile := sp.2 }
    | .wallet_topup =>
      let w := base.wallet.getD { balance := 0 }
      let r := w.add_funds base.ledger payment2.amount "Wallet top-up via Stripe" .credit
      { base with wallet := some r.2.1, ledger := r.2.2 }
    | _ => base

/-- `StripeWebhookView.handle_payment_failure(self, payment_intent)`
(`payments/views.py` lines 400-411): unconditionally sets status `failed`
and stores the payload; a lookup miss is swallowed. -/
def handle_payment_failure (store : Store) (intent : PaymentIntent) : Store :=
  match findPayment store.payments intent.payment_id with
  | none => store
  | some payment =>
    let payment2 : Payment :=
      { payment with status := .failed,
                     gateway_response := some intent.payload }
    { store with payments := savePayment store.payments payment2 }

/-- `StripeWebhookView.post` after a successfully parsed event
(`payments/views.py` lines 366-372): dispatch on the event type and always
answer HTTP 200 to the gateway. -/
def stripeWebhookPost (store : Store) (event_type : String)
    (intent : PaymentIntent) (now : Int) : Store × Nat :=
  if event_type = "payment_intent.succeeded" then
    (handle_payment_success store intent now, 200)
  else if event_type = "payment_intent.payment_failed" then
    (handle_payment_failure store intent, 200)
  else
    (store, 200)

/-- C9: a gateway success or failure notification whose `payment_id`
matches no stored Payment (or carries none) is silently ignored: the store
is unchanged and the webhook still answers HTTP 200, for every event type. -/
theorem unknown_payment_notification_ignored (store : Store)
    (intent : PaymentIntent) (now : Int) (event_type : String)
    (h : findPayment store.payments intent.payment_id = none) :
    stripeWebhookPost store event_type intent now = (store, 200) := by
  unfold stripeWebhookPost handle_payment_success handle_payment_failure
  rw [h]
  by_cases h1 : event_type = "payment_intent.succeeded" <;>
    by_cases h2 : event_type = "payment_intent.payment_failed" <;>
      simp [h1, h2]

/-- An initial store holding one pending wallet top-up payment of 50 for a
user with no wallet row yet. -/
def topupStore : Store :=
  { payments := [{ id := 7, user := 3, payment_type := .wallet_topup,
                   amount := 50, payment_method := "stripe",
                   status := .pending, session := none,
                   stripe_payment_intent_id := "", gateway_response := none,
                   pdescription := "Wallet top-up - GHS 50",
                   meta_plan := none, meta_months := none,
                   meta_phone := none, completed_at := none }],
    sessions := [], subscription := none,
    profile := { subscription_active := false, subscription_expiry := none },
    wallet := none, ledger := [] }

/-- Witness for C9: a success notification for unknown payment id 99
leaves the concrete store untouched and answers 200. -/
theorem unknown_payment_notification_ignored_witness :
    findPayment topupStore.payments (some 99) = none ∧
    stripeWebhookPost topupStore "payment_intent.succeeded"
        { payment_id := some 99, payload := "evt" } 5 = (topupStore, 200) := by
  refine ⟨by decide, ?_⟩
  exact unknown_payment_notification_ignored topupStore
    { payment_id := some 99, payload := "evt" } 5
    "payment_intent.succeeded" (by decide)

/-- C1: the code has no already-completed guard, so the claimed idempotency
fails.  Evaluating the webhook success handler twice on the store holding
the pending wallet top-up payment of 50 (deliveries at day 5 and day 9):
the first delivery completes the payment, stamps `completed_at = 5` and
credits the wallet to 50 with one ledger row; the second delivery is not a
no-op — it restamps `completed_at` to 9 and credits the wallet again,
leaving balance 100 and two ledger rows (the type-specific side effect
fires twice). -/
theorem duplicate_success_not_idempotent :
    (handle_payment_success topupStore ⟨some 7, "evt"⟩ 5).wallet =
        some { balance := 50 } ∧
    (handle_payment_success topupStore ⟨some 7, "evt"⟩ 5).ledger.length = 1 ∧
    ((findPayment (handle_payment_success topupStore ⟨some 7, "evt"⟩ 5).payments
        (some 7)).map Payment.completed_at) = some (some 5) ∧
    (handle_payment_success
        (handle_payment_success topupStore ⟨some 7, "evt"⟩ 5)
        ⟨some 7, "evt"⟩ 9).wallet = some { balance := 100 } ∧
    (handle_payment_success
        (handle_payment_success topupStore ⟨some 7, "evt"⟩ 5)
        ⟨some 7, "evt"⟩ 9).ledger.length = 2 ∧
    ((findPayment (handle_payment_success
        (handle_payment_success topupStore ⟨some 7, "evt"⟩ 5)
        ⟨some 7, "evt"⟩ 9).payments (some 7)).map Payment.completed_at) =
      some (some 9) := by
  norm_num [handle_payment_success, topupStore, findPayment, savePayment,
    Wallet.add_funds]

/-- `plan_prices` of `SubscriptionView.post` (`payments/views.py` lines
229-233): amount and duration in months per plan name. -/
def plan_prices : String → Option (ℚ × Nat)
  | "basic" => some (50, 1)
  | "standard" => some (120, 3)
  | "premium" => some (200, 6)
  | _ => none

/-- The `Payment.objects.create` call of `SubscriptionView.post`
(`payments/views.py` lines 240-247); the `.title()` capitalization of the
plan name inside the description string is elided. -/
def mkSubscriptionPayment (nextId user : Nat) (plan : String) (amount : ℚ)
    (months : Nat) (method : String) : Payment :=
  { id := nextId, user := user, payment_type := .subscription,
    amount := amount, payment_method := method, status := .pending,
    session := none, stripe_payment_intent_id := "",
    gateway_response := none,
    pdescription := "Tutor subscription - " ++ plan ++ " plan",
    meta_plan := some plan, meta_months := some months, meta_phone := none,
    completed_at := none }

/-- `payment.delete()`: remove the row with this payment's id. -/
def deletePayment (ps : List Payment) (p : Payment) : List Payment :=
  ps.filter (fun q => q.id ≠ p.id)

/-- `SubscriptionView.post(self, request)` (`payments/views.py` lines
220-267), projected onto the persisted payment table.  `gateway_ok` is
whether `stripe.PaymentIntent.create` raises `StripeError`; on the error
the just-created Payment is deleted (`payment.delete()`, line 264).
Non-stripe methods leave the pending Payment and redirect. -/
def subscriptionViewPost (payments : List Payment) (nextId user : Nat)
    (is_tutor : Bool) (plan : String) (payment_method : String)
    (gateway_ok : Bool) : List Payment :=
  if !is_tutor then payments
  else
    match plan_prices plan with
    | none => payments
    | some pr =>
      let payment := mkSubscriptionPayment nextId user plan pr.1 pr.2 payment_method
      let payments2 := payments ++ [payment]
      if payment_method = "stripe" then
        if gateway_ok then payments2 else deletePayment payments2 payment
      else payments2

/-- The `Payment.objects.create` call of `WalletView.post`
(`payments/views.py` lines 292-298); the amount interpolated into the
description string is elided. -/
def mkTopupPayment (nextId user : Nat) (amount : ℚ) (method : String) :
    Payment :=
  { id := nextId, user := user, payment_type := .wallet_topup,
    amount := amount, payment_method := method, status := .pending,
    session := none, stripe_payment_intent_id := "",
    gateway_response := none, pdescription := "Wallet top-up",
    meta_plan := none, meta_months := none, meta_phone := none,
    completed_at := none }

/-- `WalletView.post(self, request)` (`payments/views.py` lines 285-313),
projected onto the persisted payment table: only `action == 'topup'` with
`amount > 0` creates a Payment; on a Stripe gateway error the just-created
Payment is deleted (`payment.delete()`, line 310); any other case falls
through to the redirect. -/
def walletViewPost (payments : List Payment) (nextId user : Nat)
    (action : String) (amount : ℚ) (payment_method : String)
    (gateway_ok : Bool) : List Payment :=
  if action = "topup" then
    if amount > 0 then
      let payment := mkTopupPayment nextId user amount payment_method
      let payments2 := payments ++ [payment]
      if payment_method = "stripe" then
        if gateway_ok then payments2 else deletePayment payments2 payment
      else payments2
    else payments
  else payments

/-- The `Payment.objects.create` call of `PayForSessionView.post`
(`payments/views.py` lines 78-85): amount taken from the session's
`total_amount`, with no validation. -/
def mkSessionPayment (nextId user : Nat) (s : SessionRec) (method : String) :
    Payment :=
  { id := nextId, user := user, payment_type := .session,
    amount := s.total_amount, payment_method := method, status := .pending,
    session := some s.id, stripe_payment_intent_id := "",
    gateway_response := none,
    pdescription := "Payment for session: " ++ s.title,
    meta_plan := none, meta_months := none, meta_phone := none,
    completed_at := none }

/-- `PayForSessionView.process_stripe_payment` (`payments/views.py` lines
97-119): on success records the intent id and keeps the Payment pending;
on `StripeError` marks the Payment `failed` (the session path keeps the
record, unlike the subscription and top-up paths). -/
def process_stripe_payment (payment : Payment) (gateway_ok : Bool)
    (intent_id : String) : Payment :=
  if gateway_ok then
    { payment with stripe_payment_intent_id := intent_id }
  else
    { payment with status := .failed }

/-- `PayForSessionView.process_wallet_payment` (`payments/views.py` lines
121-146): missing wallet row (the `except` branch), insufficient balance,
or a failed `deduct_funds` all mark the Payment `failed`; a successful
debit completes the Payment, stamps `completed_at = now` and confirms the
session. -/
def process_wallet_payment (payment : Payment) (wallet : Option Wallet)
    (ledger : List WalletTransaction) (s : SessionRec) (now : Int) :
    Payment × Option Wallet × List WalletTransaction × SessionRec :=
  match wallet with
  | none => ({ payment with status := .failed }, none, ledger, s)
  | some w =>
    if w.has_sufficient_balance payment.amount then
      let r := w.deduct_funds ledger payment.amount
        ("Payment for session: " ++ s.title)
      if r.1 then
        ({ payment with status := .completed, completed_at := some now },
          some r.2.1, r.2.2, { s with status := .confirmed })
      else
        ({ payment with status := .failed }, some r.2.1, r.2.2, s)
    else
      ({ payment with status := .failed }, some w, ledger, s)

/-- `PayForSessionView.process_mobile_money_payment` (`payments/views.py`
lines 148-159): re-asserts `pending` and stores the phone number into the
metadata. -/
def process_mobile_money_payment (payment : Payment)
    (phone : Option String) : Payment :=
  { payment with status := .pending, meta_phone := phone }

/-- `PayForSessionView.post(self, request, session_id)`
(`payments/views.py` lines 73-95): unconditionally creates the pending
Payment for `session.total_amount`, then dispatches on the method; an
unrecognized method leaves the freshly created pending Payment and
redirects with an error message.  Returns the payment table, the wallet
row, the ledger and the session row after the request. -/
def payForSessionPost (payments : List Payment) (nextId user : Nat)
    (s : SessionRec) (payment_method : String) (wallet : Option Wallet)
    (ledger : List WalletTransaction) (gateway_ok : Bool)
    (intent_id : String) (phone : Option String) (now : Int) :
    List Payment × Option Wallet × List WalletTransaction × SessionRec :=
  let payment := mkSessionPayment nextId user s payment_method
  if payment_method = "stripe" then
    (payments ++ [process_stripe_payment payment gateway_ok intent_id],
      wallet, ledger, s)
  else if payment_method = "wallet" then
    let r := process_wallet_payment payment wallet ledger s now
    (payments ++ [r.1], r.2.1, r.2.2.1, r.2.2.2)
  else if payment_method = "mtn_momo" ∨ payment_method = "vodafone_cash" then
    (payments ++ [process_mobile_money_payment payment phone],
      wallet, ledger, s)
  else
    (payments ++ [payment], wallet, ledger, s)

/-- C4 as stated is false: in `SubscriptionView.post` and `WalletView.post`
a `StripeError` during charge-intent creation runs `payment.delete()` on
the Payment the request just created.  Concretely, the subscription
purchase (tutor 4, basic plan, stripe) ends with an empty payment table
when the gateway errors, while the same request with a working gateway
persists the Payment; likewise for the wallet top-up of 20. -/
theorem gateway_error_deletes_payment :
    subscriptionViewPost [] 21 4 true "basic" "stripe" false = [] ∧
    subscriptionViewPost [] 21 4 true "basic" "stripe" true =
      [mkSubscriptionPayment 21 4 "basic" 50 1 "stripe"] ∧
    walletViewPost [] 22 4 "topup" 20 "stripe" false = [] ∧
    walletViewPost [] 22 4 "topup" 20 "stripe" true =
      [mkTopupPayment 22 4 20 "stripe"] := by
  refine ⟨?_, ?_, ?_, ?_⟩ <;>
    simp [subscriptionViewPost, walletViewPost, plan_prices, deletePayment,
      mkSubscriptionPayment, mkTopupPayment]

theorem savePayment_map_id (ps : List Payment) (p : Payment) :
    (savePayment ps p).map Payment.id = ps.map Payment.id := by
  induction ps with
  | nil => rfl
  | cons q ps ih =>
    simp only [savePayment, List.map_cons] at ih ⊢
    by_cases h : q.id = p.id <;> simp [h, ih]

/-- C4 amended: Payment records survive every operation of the core except
the gateway-error branch of subscription and wallet top-up charge-intent
creation, which deletes only the Payment created by that same request:
both webhook handlers preserve the set of Payment rows (only fields
change), the session charge path keeps its Payment on a gateway error
(marked `failed`), and every Payment already stored before a subscription
or top-up request survives it. -/
theorem payment_records_preserved (store : Store) (intent : PaymentIntent)
    (now : Int) (payments : List Payment) (nextId user : Nat)
    (s : SessionRec) (w : Option Wallet) (L : List WalletTransaction)
    (iid : String) (ph : Option String) (t : Int) :
    ((handle_payment_success store intent now).payments).map Payment.id =
        store.payments.map Payment.id ∧
    ((handle_payment_failure store intent).payments).map Payment.id =
        store.payments.map Payment.id ∧
    (payForSessionPost payments nextId user s "stripe" w L false iid ph t).1 =
        payments ++
          [{ mkSessionPayment nextId user s "stripe" with
               status := PaymentStatus.failed }] ∧
    (∀ (p : Payment) (is_tutor : Bool) (plan method : String) (ok : Bool),
        p ∈ payments → p.id ≠ nextId →
        p ∈ subscriptionViewPost payments nextId user is_tutor plan method ok) ∧
    (∀ (p : Payment) (action : String) (amount : ℚ) (method : String)
        (ok : Bool), p ∈ payments → p.id ≠ nextId →
        p ∈ walletViewPost payments nextId user action amount method ok) := by
  refine ⟨?_, ?_, ?_, ?_, ?_⟩
  · unfold handle_payment_success
    cases hf : findPayment store.payments intent.payment_id with
    | none => rfl
    | some payment =>
      cases hpt : payment.payment_type <;>
        cases hs : payment.session <;>
          simp [hpt, hs, savePayment_map_id]
  · unfold handle_payment_failure
    cases hf : findPayment store.payments intent.payment_id with
    | none => rfl
    | some payment => simp [savePayment_map_id]
  · simp [payForSessionPost, process_stripe_payment]
  · intro p is_tutor plan method ok hp hneq
    unfold subscriptionViewPost
    cases is_tutor with
    | false => simpa using hp
    | true =>
      cases plan_prices plan with
      | none => simpa using hp
      | some pr =>
        by_cases hm : method = "stripe" <;>
          cases ok <;>
            simp [hm, deletePayment, mkSubscriptionPayment, hp, hneq,
              List.mem_filter, List.mem_append]
  · intro p action amount method ok hp hneq
    unfold walletViewPost
    by_cases ha : action = "topup"
    · by_cases hz : amount > 0
      · by_cases hm : method = "stripe" <;>
          cases ok <;>
            simp [ha, hz, hm, deletePayment, mkTopupPayment, hp, hneq,
              List.mem_filter, List.mem_append]
      · simp [ha, hz, hp]
    · simp [ha, hp]

/-- Witness for C4 amended at concrete values: a pre-existing completed
payment (id 1) survives a failed-gateway subscription request and a
failed-gateway top-up request creating payment id 30, and the webhook
handlers keep the single row of the top-up store. -/
theorem payment_records_preserved_witness :
    ((handle_payment_success topupStore ⟨some 7, "evt"⟩ 5).payments).map
        Payment.id = [7] ∧
    completedPayment50 ∈
      subscriptionViewPost [completedPayment50] 30 1 true "basic" "stripe"
        false ∧
    completedPayment50 ∈
      walletViewPost [completedPayment50] 30 1 "topup" 20 "stripe" false := by
  have h := payment_records_preserved topupStore ⟨some 7, "evt"⟩ 5
    [completedPayment50] 30 1
    { id := 9, title := "t", total_amount := 0, status := .scheduled }
    none [] "" none 0
  refine ⟨?_, ?_, ?_⟩
  · rw [h.1]; rfl
  · exact h.2.2.2.1 completedPayment50 true "basic" "stripe" false
      (by simp) (by decide)
  · exact h.2.2.2.2 completedPayment50 "topup" 20 "stripe" false
      (by simp) (by decide)

/-- C5 as stated is false for the session path: `PayForSessionView.post`
performs no amount validation, so paying (by mobile money) for a session
whose `total_amount` is 0 persists a Payment with amount 0 instead of
failing with InvalidAmount. -/
theorem zero_amount_session_payment_persisted :
    (payForSessionPost [] 11 2
        { id := 9, title := "t", total_amount := 0, status := .scheduled }
        "mtn_momo" none [] true "" (some "024") 0).1 =
      [{ id := 11, user := 2, payment_type := .session, amount := 0,
         payment_method := "mtn_momo", status := .pending,
         session := some 9, stripe_payment_intent_id := "",
         gateway_response := none,
         pdescription := "Payment for session: t", meta_plan := none,
         meta_months := none, meta_phone := some "024",
         completed_at := none }] := by
  simp [payForSessionPost, mkSessionPayment, process_mobile_money_payment]

/-- C5 amended: only the wallet top-up path guards the amount, and it does
so silently — `WalletView.post` with `amount ≤ 0` creates no Payment and
just redirects (no InvalidAmount error is surfaced); the session path
persists a Payment for whatever the session's `total_amount` is, with no
validation; and every Payment record is created with initial status
`pending`. -/
theorem payment_creation_amended (payments : List Payment)
    (nextId user : Nat) (amount : ℚ) (method : String) (ok : Bool)
    (s : SessionRec) (plan : String) (a2 : ℚ) (months : Nat)
    (h : amount ≤ 0) :
    walletViewPost payments nextId user "topup" amount method ok =
        payments ∧
    (mkSessionPayment nextId user s method).status = .pending ∧
    (mkSessionPayment nextId user s method).amount = s.total_amount ∧
    (mkSubscriptionPayment nextId user plan a2 months method).status =
        .pending ∧
    (mkTopupPayment nextId user amount method).status = .pending := by
  refine ⟨?_, rfl, rfl, rfl, rfl⟩
  unfold walletViewPost
  rw [if_pos rfl, if_neg (by simpa using not_lt.mpr h)]

/-- Witness for C5 amended: a zero-amount top-up request against a store
holding one payment leaves the payment table unchanged. -/
theorem payment_creation_amended_witness :
    walletViewPost [completedPayment50] 31 1 "topup" 0 "stripe" true =
        [completedPayment50] ∧
    (mkTopupPayment 31 1 0 "stripe").status = .pending := by
  have h := payment_creation_amended [completedPayment50] 31 1 0 "stripe"
    true { id := 9, title := "t", total_amount := 0, status := .scheduled }
    "basic" 50 1 (by norm_num)
  exact ⟨h.1, h.2.2.2.2⟩

end Harcourt
